import Mathlib

/-!
Shallow embedding of the firecamp metadata-store core:
the in-memory reference backend (`MemDB` over synchronized Go maps) and
the DNS naming/registration utilities, translated from the Go source.
Go strings are modelled as `List Char`; Go maps as association lists with
first-match lookup and in-place replacement; methods that mutate the
receiver and return an error are modelled as functions returning the new
state paired with an `Except` result.
-/

deriving instance DecidableEq for Except

namespace Firecamp

/-- Go string, modelled as its character sequence. -/
abbrev GoStr := List Char

/-- The storage error taxonomy of the db package. -/
inductive DBError
  | RecordNotFound
  | ConditionalCheckFailed
  | Unavailable
deriving DecidableEq, Repr

/-- common.Device: identity (ClusterName, DeviceName). -/
structure Device where
  ClusterName : GoStr
  DeviceName : GoStr
  ServiceName : GoStr
deriving DecidableEq, Repr

/-- common.Service: identity (ClusterName, ServiceName). -/
structure Service where
  ClusterName : GoStr
  ServiceName : GoStr
  ServiceUUID : GoStr
deriving DecidableEq, Repr

/-- common.ServiceAttr: identity ServiceUUID; fields as enumerated by copyServiceAttr. -/
structure ServiceAttr where
  ServiceUUID : GoStr
  ServiceStatus : GoStr
  LastModified : Int
  Replicas : Int
  VolumeSizeGB : Int
  ClusterName : GoStr
  ServiceName : GoStr
  DeviceName : GoStr
  HasStrictMembership : Bool
  DomainName : GoStr
  HostedZoneID : GoStr
deriving DecidableEq, Repr

/-- common.Volume (the Member record): identity (ServiceUUID, VolumeID);
fields as enumerated by copyVolume. Configs is the member's list of
config-file references. -/
structure Volume where
  ServiceUUID : GoStr
  VolumeID : GoStr
  LastModified : Int
  DeviceName : GoStr
  AvailableZone : GoStr
  TaskID : GoStr
  ContainerInstanceID : GoStr
  ServerInstanceID : GoStr
  MemberName : GoStr
  Configs : List GoStr
deriving DecidableEq, Repr

/-- common.ConfigFile: identity (ServiceUUID, FileID). -/
structure ConfigFile where
  FileID : GoStr
  FileMD5 : GoStr
  FileName : GoStr
  FileMode : Nat
  ServiceUUID : GoStr
  LastModified : Int
  Content : GoStr
deriving DecidableEq, Repr

/-- A Go map from string keys, as an association list (insertion order). -/
abbrev GoMap (α : Type) := List (GoStr × α)

/-- Go map read `m[k]`: first (unique) binding of the key. -/
def mapGet {α : Type} (m : GoMap α) (k : GoStr) : Option α :=
  match m with
  | [] => none
  | (k', v) :: rest => if k' = k then some v else mapGet rest k

/-- Go map write `m[k] = v`: replace the binding in place, or append. -/
def mapPut {α : Type} (m : GoMap α) (k : GoStr) (v : α) : GoMap α :=
  match m with
  | [] => [(k, v)]
  | (k', v') :: rest => if k' = k then (k, v) :: rest else (k', v') :: mapPut rest k v

/-- Go `delete(m, k)`. -/
def mapDel {α : Type} (m : GoMap α) (k : GoStr) : GoMap α :=
  match m with
  | [] => []
  | (k', v') :: rest => if k' = k then rest else (k', v') :: mapDel rest k

/-- The in-memory backend state: one map per entity kind (MemDB). -/
structure MemDB where
  devMap : GoMap Device
  svcMap : GoMap Service
  svcAttrMap : GoMap ServiceAttr
  volMap : GoMap Volume
  cfgMap : GoMap ConfigFile
deriving DecidableEq, Repr

/-- NewMemDB: all maps empty. -/
def NewMemDB : MemDB :=
  { devMap := [], svcMap := [], svcAttrMap := [], volMap := [], cfgMap := [] }

/-- copyDevice from the source, field by field. -/
def copyDevice (t : Device) : Device :=
  { ClusterName := t.ClusterName
    DeviceName := t.DeviceName
    ServiceName := t.ServiceName }

/-- copyService from the source, field by field. -/
def copyService (t : Service) : Service :=
  { ClusterName := t.ClusterName
    ServiceName := t.ServiceName
    ServiceUUID := t.ServiceUUID }

/-- copyServiceAttr from the source, field by field. -/
def copyServiceAttr (t : ServiceAttr) : ServiceAttr :=
  { ServiceUUID := t.ServiceUUID
    ServiceStatus := t.ServiceStatus
    LastModified := t.LastModified
    Replicas := t.Replicas
    VolumeSizeGB := t.VolumeSizeGB
    ClusterName := t.ClusterName
    ServiceName := t.ServiceName
    DeviceName := t.DeviceName
    HasStrictMembership := t.HasStrictMembership
    DomainName := t.DomainName
    HostedZoneID := t.HostedZoneID }

/-- copyVolume from the source, field by field (Configs is assigned
through, exactly as the Go `Configs: t.Configs` slice assignment). -/
def copyVolume (t : Volume) : Volume :=
  { ServiceUUID := t.ServiceUUID
    VolumeID := t.VolumeID
    LastModified := t.LastModified
    DeviceName := t.DeviceName
    AvailableZone := t.AvailableZone
    TaskID := t.TaskID
    ContainerInstanceID := t.ContainerInstanceID
    ServerInstanceID := t.ServerInstanceID
    MemberName := t.MemberName
    Configs := t.Configs }

/-- copyConfigFile from the source, field by field. -/
def copyConfigFile (t : ConfigFile) : ConfigFile :=
  { FileID := t.FileID
    FileMD5 := t.FileMD5
    FileName := t.FileName
    FileMode := t.FileMode
    ServiceUUID := t.ServiceUUID
    LastModified := t.LastModified
    Content := t.Content }

/-- CreateDevice: key is `dev.ClusterName + dev.DeviceName`. -/
def CreateDevice (d : MemDB) (dev : Device) : MemDB × Except DBError Unit :=
  let key := dev.ClusterName ++ dev.DeviceName
  match mapGet d.devMap key with
  | some _ => (d, .error .ConditionalCheckFailed)
  | none => ({ d with devMap := mapPut d.devMap key dev }, .ok ())

/-- GetDevice: key is `clusterName + deviceName`. -/
def GetDevice (d : MemDB) (clusterName deviceName : GoStr) : Except DBError Device :=
  let key := clusterName ++ deviceName
  match mapGet d.devMap key with
  | none => .error .RecordNotFound
  | some cdev => .ok (copyDevice cdev)

/-- DeleteDevice from the source. -/
def DeleteDevice (d : MemDB) (clusterName deviceName : GoStr) : MemDB × Except DBError Unit :=
  let key := clusterName ++ deviceName
  match mapGet d.devMap key with
  | none => (d, .error .RecordNotFound)
  | some _ => ({ d with devMap := mapDel d.devMap key }, .ok ())

/-- listDevicesWithLimit: copies every entry of devMap, ignoring both the
clusterName argument and the limit. -/
def listDevicesWithLimit (d : MemDB) (clusterName : GoStr) (limit : Int) :
    Except DBError (List Device) :=
  .ok (d.devMap.map fun p => copyDevice p.2)

/-- ListDevices delegates with limit 0. -/
def ListDevices (d : MemDB) (clusterName : GoStr) : Except DBError (List Device) :=
  listDevicesWithLimit d clusterName 0

/-- CreateService: key is `svc.ClusterName + svc.ServiceName`. -/
def CreateService (d : MemDB) (svc : Service) : MemDB × Except DBError Unit :=
  let key := svc.ClusterName ++ svc.ServiceName
  match mapGet d.svcMap key with
  | some _ => (d, .error .ConditionalCheckFailed)
  | none => ({ d with svcMap := mapPut d.svcMap key svc }, .ok ())

/-- GetService from the source. -/
def GetService (d : MemDB) (clusterName serviceName : GoStr) : Except DBError Service :=
  let key := clusterName ++ serviceName
  match mapGet d.svcMap key with
  | none => .error .RecordNotFound
  | some csvc => .ok (copyService csvc)

/-- DeleteService from the source. -/
def DeleteService (d : MemDB) (clusterName serviceName : GoStr) : MemDB × Except DBError Unit :=
  let key := clusterName ++ serviceName
  match mapGet d.svcMap key with
  | none => (d, .error .RecordNotFound)
  | some _ => ({ d with svcMap := mapDel d.svcMap key }, .ok ())

/-- listServicesWithLimit: copies every entry of svcMap, ignoring both the
clusterName argument and the limit. -/
def listServicesWithLimit (d : MemDB) (clusterName : GoStr) (limit : Int) :
    Except DBError (List Service) :=
  .ok (d.svcMap.map fun p => copyService p.2)

/-- ListServices delegates with limit 0. -/
def ListServices (d : MemDB) (clusterName : GoStr) : Except DBError (List Service) :=
  listServicesWithLimit d clusterName 0

/-- CreateServiceAttr: keyed by attr.ServiceUUID. -/
def CreateServiceAttr (d : MemDB) (attr : ServiceAttr) : MemDB × Except DBError Unit :=
  match mapGet d.svcAttrMap attr.ServiceUUID with
  | some _ => (d, .error .ConditionalCheckFailed)
  | none => ({ d with svcAttrMap := mapPut d.svcAttrMap attr.ServiceUUID attr }, .ok ())

/-- UpdateServiceAttr: looks up oldAttr.ServiceUUID; if absent returns
RecordNotFound, otherwise stores newAttr unconditionally — the source
performs no comparison of the stored record against oldAttr. -/
def UpdateServiceAttr (d : MemDB) (oldAttr newAttr : ServiceAttr) :
    MemDB × Except DBError Unit :=
  match mapGet d.svcAttrMap oldAttr.ServiceUUID with
  | none => (d, .error .RecordNotFound)
  | some _ => ({ d with svcAttrMap := mapPut d.svcAttrMap oldAttr.ServiceUUID newAttr }, .ok ())

/-- GetServiceAttr from the source. -/
def GetServiceAttr (d : MemDB) (serviceUUID : GoStr) : Except DBError ServiceAttr :=
  match mapGet d.svcAttrMap serviceUUID with
  | none => .error .RecordNotFound
  | some cattr => .ok (copyServiceAttr cattr)

/-- DeleteServiceAttr from the source. -/
def DeleteServiceAttr (d : MemDB) (serviceUUID : GoStr) : MemDB × Except DBError Unit :=
  match mapGet d.svcAttrMap serviceUUID with
  | none => (d, .error .RecordNotFound)
  | some _ => ({ d with svcAttrMap := mapDel d.svcAttrMap serviceUUID }, .ok ())

/-- Modelled from the spec: `EqualVolume` is defined outside the sources
given here; §4.1 defines Member-record equality for compare-and-swap as
field-wise equality with a caller-selectable mode that excludes the
config-file-reference list (the Boolean argument; true skips Configs). -/
def EqualVolume (v1 v2 : Volume) (skipConfigs : Bool) : Bool :=
  v1.ServiceUUID == v2.ServiceUUID &&
  v1.VolumeID == v2.VolumeID &&
  v1.LastModified == v2.LastModified &&
  v1.DeviceName == v2.DeviceName &&
  v1.AvailableZone == v2.AvailableZone &&
  v1.TaskID == v2.TaskID &&
  v1.ContainerInstanceID == v2.ContainerInstanceID &&
  v1.ServerInstanceID == v2.ServerInstanceID &&
  v1.MemberName == v2.MemberName &&
  (skipConfigs || v1.Configs == v2.Configs)

/-- CreateVolume: key is `vol.ServiceUUID + vol.VolumeID`. -/
def CreateVolume (d : MemDB) (vol : Volume) : MemDB × Except DBError Unit :=
  let key := vol.ServiceUUID ++ vol.VolumeID
  match mapGet d.volMap key with
  | some _ => (d, .error .ConditionalCheckFailed)
  | none => ({ d with volMap := mapPut d.volMap key vol }, .ok ())

/-- UpdateVolume: keyed by oldVol's identity; RecordNotFound when absent,
ConditionalCheckFailed when the stored record does not satisfy
`EqualVolume oldVol stored true`, otherwise stores newVol. -/
def UpdateVolume (d : MemDB) (oldVol newVol : Volume) : MemDB × Except DBError Unit :=
  let key := oldVol.ServiceUUID ++ oldVol.VolumeID
  match mapGet d.volMap key with
  | none => (d, .error .RecordNotFound)
  | some vol =>
    if ! EqualVolume oldVol vol true then (d, .error .ConditionalCheckFailed)
    else ({ d with volMap := mapPut d.volMap key newVol }, .ok ())

/-- GetVolume from the source. -/
def GetVolume (d : MemDB) (serviceUUID volumeID : GoStr) : Except DBError Volume :=
  let key := serviceUUID ++ volumeID
  match mapGet d.volMap key with
  | none => .error .RecordNotFound
  | some cvol => .ok (copyVolume cvol)

/-- listVolumesWithLimit: the only list that filters by its partition key —
it keeps exactly the entries whose ServiceUUID equals the argument. -/
def listVolumesWithLimit (d : MemDB) (serviceUUID : GoStr) (limit : Int) :
    Except DBError (List Volume) :=
  .ok (d.volMap.filterMap fun p =>
    if p.2.ServiceUUID = serviceUUID then some (copyVolume p.2) else none)

/-- ListVolumes delegates with limit 0. -/
def ListVolumes (d : MemDB) (serviceUUID : GoStr) : Except DBError (List Volume) :=
  listVolumesWithLimit d serviceUUID 0

/-- DeleteVolume from the source. -/
def DeleteVolume (d : MemDB) (serviceUUID volumeID : GoStr) : MemDB × Except DBError Unit :=
  let key := serviceUUID ++ volumeID
  match mapGet d.volMap key with
  | none => (d, .error .RecordNotFound)
  | some _ => ({ d with volMap := mapDel d.volMap key }, .ok ())

/-- CreateConfigFile: key is `cfg.ServiceUUID + cfg.FileID`. -/
def CreateConfigFile (d : MemDB) (cfg : ConfigFile) : MemDB × Except DBError Unit :=
  let key := cfg.ServiceUUID ++ cfg.FileID
  match mapGet d.cfgMap key with
  | some _ => (d, .error .ConditionalCheckFailed)
  | none => ({ d with cfgMap := mapPut d.cfgMap key cfg }, .ok ())

/-- GetConfigFile from the source. -/
def GetConfigFile (d : MemDB) (serviceUUID fileID : GoStr) : Except DBError ConfigFile :=
  let key := serviceUUID ++ fileID
  match mapGet d.cfgMap key with
  | none => .error .RecordNotFound
  | some c => .ok (copyConfigFile c)

/-- DeleteConfigFile from the source. -/
def DeleteConfigFile (d : MemDB) (serviceUUID fileID : GoStr) : MemDB × Except DBError Unit :=
  let key := serviceUUID ++ fileID
  match mapGet d.cfgMap key with
  | none => (d, .error .RecordNotFound)
  | some _ => ({ d with cfgMap := mapDel d.cfgMap key }, .ok ())

/-!
Slice-level model of `copyVolume`. A Go slice value is a header holding a
reference to a backing array; assigning `Configs: t.Configs` copies the
header, not the array. To reason about the isolation of records returned
by Get, `VolumeS` keeps the Configs field as such a reference into an
explicit heap of backing arrays, and `copyVolumeS` mirrors `copyVolume`
at that level.
-/

/-- A Go slice header: a reference to a backing array in the heap. -/
structure SliceRef where
  ref : Nat
deriving DecidableEq, Repr

/-- The heap of Configs backing arrays, indexed by `SliceRef.ref`. -/
abbrev ConfigHeap := List (List GoStr)

/-- common.Volume with its Configs slice kept as a heap reference. -/
structure VolumeS where
  ServiceUUID : GoStr
  VolumeID : GoStr
  LastModified : Int
  DeviceName : GoStr
  AvailableZone : GoStr
  TaskID : GoStr
  ContainerInstanceID : GoStr
  ServerInstanceID : GoStr
  MemberName : GoStr
  Configs : SliceRef
deriving DecidableEq, Repr

/-- copyVolume at the slice level: every field of the Go struct literal,
with `Configs := t.Configs` copying the slice header. -/
def copyVolumeS (t : VolumeS) : VolumeS :=
  { ServiceUUID := t.ServiceUUID
    VolumeID := t.VolumeID
    LastModified := t.LastModified
    DeviceName := t.DeviceName
    AvailableZone := t.AvailableZone
    TaskID := t.TaskID
    ContainerInstanceID := t.ContainerInstanceID
    ServerInstanceID := t.ServerInstanceID
    MemberName := t.MemberName
    Configs := t.Configs }

/-- Dereference a slice: the backing array it points to. -/
def readSlice (h : ConfigHeap) (r : SliceRef) : List GoStr :=
  h.getD r.ref []

/-- `s[i] = v` through a slice header: mutate the backing array in place. -/
def writeSliceElem (h : ConfigHeap) (r : SliceRef) (i : Nat) (v : GoStr) : ConfigHeap :=
  h.set r.ref ((h.getD r.ref []).set i v)

end Firecamp

namespace FirecampDNS

open Firecamp (GoStr)

/-- The dns package error relevant here, plus an opaque provider failure. -/
inductive DNSError
  | DomainNotFound
  | Unavailable
deriving DecidableEq, Repr

/-- dnsNameSeparator = ".". -/
def dnsNameSeparator : Char := '.'

/-- GenDNSName: svcMemberName + "." + domainName. -/
def GenDNSName (svcMemberName domainName : GoStr) : GoStr :=
  svcMemberName ++ dnsNameSeparator :: domainName

/-- Go strings.Split(s, sep) for a one-character separator. -/
def splitSep (sep : Char) : GoStr → List GoStr
  | [] => [[]]
  | a :: t =>
    if a = sep then
      [] :: splitSep sep t
    else
      match splitSep sep t with
      | [] => [[a]]
      | h :: r => (a :: h) :: r

/-- GetDomainNameFromDNSName: split on '.', DomainNotFound if fewer than
3 labels, else the last two labels joined by '.'. -/
def GetDomainNameFromDNSName (dnsname : GoStr) : Except DNSError GoStr :=
  let names := splitSep dnsNameSeparator dnsname
  if names.length < 3 then .error .DomainNotFound
  else
    .ok ((names.getD (names.length - 2) []) ++
      dnsNameSeparator :: (names.getD (names.length - 1) []))

/-- FormatMgtServiceURL from the source: prepend a scheme (and append "/")
when the input does not start with "http"; otherwise append "/" only when
missing. -/
def FormatMgtServiceURL (surl : GoStr) (tlsEnabled : Bool) : GoStr :=
  if ! ("http".toList.isPrefixOf surl) then
    if tlsEnabled then "https://".toList ++ surl ++ ['/']
    else "http://".toList ++ surl ++ ['/']
  else if ! (['/'].isSuffixOf surl) then surl ++ ['/']
  else surl

/-- The server-identity collaborator: local network identity of the node. -/
structure ServerInfo where
  LocalVpcID : GoStr
  LocalRegion : GoStr
  LocalHostname : GoStr

/-- A call made to the DNS-provider collaborator, recorded for the trace. -/
inductive ProviderCall
  | getOrCreateHostedZone (domainName vpcID vpcRegion : GoStr) (priv : Bool)
  | updateServiceDNSRecord (dnsName hostname hostedZoneID : GoStr)
deriving DecidableEq, Repr

/-- The DNS-provider collaborator, as the two capabilities RegisterDNSName
uses. -/
structure DNS where
  GetOrCreateHostedZoneIDByName : GoStr → GoStr → GoStr → Bool → Except DNSError GoStr
  UpdateServiceDNSRecord : GoStr → GoStr → GoStr → Except DNSError Unit

/-- RegisterDNSName from the source, instrumented with the list of
provider calls it performs: DomainNotFound (with no provider call) when
dnsName does not end with domainName; otherwise zone resolution followed,
on success, by the record upsert. -/
def RegisterDNSName (domainName dnsName : GoStr) (serverInfo : ServerInfo)
    (dnsIns : DNS) : Except DNSError Unit × List ProviderCall :=
  if ! (domainName.isSuffixOf dnsName) then
    (.error .DomainNotFound, [])
  else
    let vpcID := serverInfo.LocalVpcID
    let vpcRegion := serverInfo.LocalRegion
    let zoneCall := ProviderCall.getOrCreateHostedZone domainName vpcID vpcRegion true
    match dnsIns.GetOrCreateHostedZoneIDByName domainName vpcID vpcRegion true with
    | .error e => (.error e, [zoneCall])
    | .ok hostedZoneID =>
      let hostname := serverInfo.LocalHostname
      (dnsIns.UpdateServiceDNSRecord dnsName hostname hostedZoneID,
        [zoneCall, ProviderCall.updateServiceDNSRecord dnsName hostname hostedZoneID])

end FirecampDNS


open Firecamp FirecampDNS

/-! Concrete records used by the closed witness and counterexample theorems. -/

/-- A device of cluster c1. -/
def devW1 : Device := ⟨"c1".toList, "d1".toList, "pg".toList⟩

/-- A device of cluster c2 (a foreign partition for c1). -/
def devW2 : Device := ⟨"c2".toList, "d1".toList, "s1".toList⟩

/-- Colliding identity pair: ("ab","c") and ("a","bc") concatenate alike. -/
def devW9a : Device := ⟨"ab".toList, "c".toList, "s1".toList⟩

/-- The other half of the colliding pair. -/
def devW9b : Device := ⟨"a".toList, "bc".toList, "s2".toList⟩

/-- A service record. -/
def svcW1 : Service := ⟨"c1".toList, "pg".toList, "u1".toList⟩

/-- A service attribute with UUID u1. -/
def attrW1 : ServiceAttr :=
  { ServiceUUID := "u1".toList
    ServiceStatus := "ACTIVE".toList
    LastModified := 1
    Replicas := 3
    VolumeSizeGB := 1
    ClusterName := "c1".toList
    ServiceName := "pg".toList
    DeviceName := "d1".toList
    HasStrictMembership := true
    DomainName := "c1-openmanage.com".toList
    HostedZoneID := "z1".toList }

/-- Same UUID u1 as attrW1 but a different replica count. -/
def attrW1b : ServiceAttr := { attrW1 with Replicas := 5 }

/-- An attribute with the distinct UUID u2. -/
def attrW2 : ServiceAttr := { attrW1 with ServiceUUID := "u2".toList, ServiceName := "mysql".toList }

/-- A volume of service u1. -/
def volW1 : Volume :=
  { ServiceUUID := "u1".toList
    VolumeID := "v1".toList
    LastModified := 1
    DeviceName := "d1".toList
    AvailableZone := "az1".toList
    TaskID := "t1".toList
    ContainerInstanceID := "ci1".toList
    ServerInstanceID := "si1".toList
    MemberName := "m1".toList
    Configs := ["cfg1".toList] }

/-- Same identity as volW1 but a different member name (stale old value). -/
def volW1b : Volume := { volW1 with MemberName := "m2".toList }

/-- A volume of the other service u2. -/
def volW2 : Volume := { volW1 with ServiceUUID := "u2".toList, VolumeID := "v2".toList }

/-- A config file of service u1. -/
def cfgW1 : ConfigFile :=
  { FileID := "f1".toList
    FileMD5 := "md5".toList
    FileName := "cfg".toList
    FileMode := 420
    ServiceUUID := "u1".toList
    LastModified := 1
    Content := "hello".toList }

/-- The slice-level volume whose Configs header points at heap cell 0. -/
def volWS : VolumeS :=
  { ServiceUUID := "u1".toList
    VolumeID := "v1".toList
    LastModified := 1
    DeviceName := "d1".toList
    AvailableZone := "az1".toList
    TaskID := "t1".toList
    ContainerInstanceID := "ci1".toList
    ServerInstanceID := "si1".toList
    MemberName := "m1".toList
    Configs := ⟨0⟩ }

/-- A heap with one Configs backing array holding cfgA. -/
def heapW0 : ConfigHeap := [["cfgA".toList]]

/-! Helper lemmas about the Go map model and the copy functions. -/

theorem copyDevice_eq (t : Device) : copyDevice t = t := rfl

theorem copyService_eq (t : Service) : copyService t = t := rfl

theorem copyServiceAttr_eq (t : ServiceAttr) : copyServiceAttr t = t := rfl

theorem copyVolume_eq (t : Volume) : copyVolume t = t := rfl

theorem copyConfigFile_eq (t : ConfigFile) : copyConfigFile t = t := rfl

theorem mapGet_mapPut_self {α : Type} (m : GoMap α) (k : GoStr) (v : α) :
    mapGet (mapPut m k v) k = some v := by
  induction m with
  | nil => simp [mapPut, mapGet]
  | cons p rest ih =>
    obtain ⟨k', v'⟩ := p
    by_cases h : k' = k
    · simp [mapPut, mapGet, h]
    · simp [mapPut, mapGet, h, ih]

theorem mapGet_mapPut_ne {α : Type} (m : GoMap α) (k k' : GoStr) (v : α)
    (h : k' ≠ k) : mapGet (mapPut m k v) k' = mapGet m k' := by
  induction m with
  | nil => simp [mapPut, mapGet, Ne.symm h]
  | cons p rest ih =>
    obtain ⟨k'', v''⟩ := p
    by_cases hk : k'' = k
    · subst hk
      simp [mapPut, mapGet, Ne.symm h]
    · simp only [mapPut, if_neg hk]
      by_cases hk' : k'' = k'
      · simp [mapGet, hk']
      · simp [mapGet, hk', ih]


/-- C9: the in-memory backend keys records by bare string concatenation of
identity fields, so the distinct device identities ("ab","c") and
("a","bc") alias one record: after CreateDevice("ab","c") succeeds,
GetDevice("a","bc") returns that record instead of RecordNotFound, and
CreateDevice("a","bc") fails with ConditionalCheckFailed, leaving the
state unchanged. -/
theorem claim_C9 :
    devW9a.ClusterName ++ devW9a.DeviceName = devW9b.ClusterName ++ devW9b.DeviceName ∧
    (devW9a.ClusterName, devW9a.DeviceName) ≠ (devW9b.ClusterName, devW9b.DeviceName) ∧
    (CreateDevice NewMemDB devW9a).2 = .ok () ∧
    GetDevice (CreateDevice NewMemDB devW9a).1 devW9b.ClusterName devW9b.DeviceName = .ok devW9a ∧
    CreateDevice (CreateDevice NewMemDB devW9a).1 devW9b
      = ((CreateDevice NewMemDB devW9a).1, .error .ConditionalCheckFailed) := by
  decide

/-- C5: for every entity kind and every state in which the record's
identity is absent, Create succeeds and an immediate Get of that identity
returns a value equal to the created record. -/
theorem claim_C5 :
    (∀ (d : MemDB) (dev : Device),
      mapGet d.devMap (dev.ClusterName ++ dev.DeviceName) = none →
      (CreateDevice d dev).2 = .ok () ∧
      GetDevice (CreateDevice d dev).1 dev.ClusterName dev.DeviceName = .ok dev) ∧
    (∀ (d : MemDB) (svc : Service),
      mapGet d.svcMap (svc.ClusterName ++ svc.ServiceName) = none →
      (CreateService d svc).2 = .ok () ∧
      GetService (CreateService d svc).1 svc.ClusterName svc.ServiceName = .ok svc) ∧
    (∀ (d : MemDB) (attr : ServiceAttr),
      mapGet d.svcAttrMap attr.ServiceUUID = none →
      (CreateServiceAttr d attr).2 = .ok () ∧
      GetServiceAttr (CreateServiceAttr d attr).1 attr.ServiceUUID = .ok attr) ∧
    (∀ (d : MemDB) (vol : Volume),
      mapGet d.volMap (vol.ServiceUUID ++ vol.VolumeID) = none →
      (CreateVolume d vol).2 = .ok () ∧
      GetVolume (CreateVolume d vol).1 vol.ServiceUUID vol.VolumeID = .ok vol) ∧
    (∀ (d : MemDB) (cfg : ConfigFile),
      mapGet d.cfgMap (cfg.ServiceUUID ++ cfg.FileID) = none →
      (CreateConfigFile d cfg).2 = .ok () ∧
      GetConfigFile (CreateConfigFile d cfg).1 cfg.ServiceUUID cfg.FileID = .ok cfg) := by
  refine ⟨?_, ?_, ?_, ?_, ?_⟩ <;> intro d e h
  · exact ⟨by simp [CreateDevice, h],
      by simp [CreateDevice, h, GetDevice, mapGet_mapPut_self, copyDevice_eq]⟩
  · exact ⟨by simp [CreateService, h],
      by simp [CreateService, h, GetService, mapGet_mapPut_self, copyService_eq]⟩
  · exact ⟨by simp [CreateServiceAttr, h],
      by simp [CreateServiceAttr, h, GetServiceAttr, mapGet_mapPut_self, copyServiceAttr_eq]⟩
  · exact ⟨by simp [CreateVolume, h],
      by simp [CreateVolume, h, GetVolume, mapGet_mapPut_self, copyVolume_eq]⟩
  · exact ⟨by simp [CreateConfigFile, h],
      by simp [CreateConfigFile, h, GetConfigFile, mapGet_mapPut_self, copyConfigFile_eq]⟩

/-- Witness for C5 at a concrete input: creating volW1 in the empty
backend succeeds and GetVolume returns it unchanged. -/
theorem claim_C5_witness :
    (CreateVolume NewMemDB volW1).2 = .ok () ∧
    GetVolume (CreateVolume NewMemDB volW1).1 volW1.ServiceUUID volW1.VolumeID = .ok volW1 :=
  claim_C5.2.2.2.1 NewMemDB volW1 (by decide)

/-- C4: for every entity kind, creating two records of the same identity
from a state where that identity is absent succeeds on the first call,
returns ConditionalCheckFailed on the second, and leaves the state (and
the first stored value) unchanged. -/
theorem claim_C4 :
    (∀ (d : MemDB) (e1 e2 : Device),
      e2.ClusterName = e1.ClusterName → e2.DeviceName = e1.DeviceName →
      mapGet d.devMap (e1.ClusterName ++ e1.DeviceName) = none →
      (CreateDevice d e1).2 = .ok () ∧
      CreateDevice (CreateDevice d e1).1 e2
        = ((CreateDevice d e1).1, .error .ConditionalCheckFailed) ∧
      mapGet (CreateDevice d e1).1.devMap (e1.ClusterName ++ e1.DeviceName) = some e1) ∧
    (∀ (d : MemDB) (e1 e2 : Service),
      e2.ClusterName = e1.ClusterName → e2.ServiceName = e1.ServiceName →
      mapGet d.svcMap (e1.ClusterName ++ e1.ServiceName) = none →
      (CreateService d e1).2 = .ok () ∧
      CreateService (CreateService d e1).1 e2
        = ((CreateService d e1).1, .error .ConditionalCheckFailed) ∧
      mapGet (CreateService d e1).1.svcMap (e1.ClusterName ++ e1.ServiceName) = some e1) ∧
    (∀ (d : MemDB) (e1 e2 : ServiceAttr),
      e2.ServiceUUID = e1.ServiceUUID →
      mapGet d.svcAttrMap e1.ServiceUUID = none →
      (CreateServiceAttr d e1).2 = .ok () ∧
      CreateServiceAttr (CreateServiceAttr d e1).1 e2
        = ((CreateServiceAttr d e1).1, .error .ConditionalCheckFailed) ∧
      mapGet (CreateServiceAttr d e1).1.svcAttrMap e1.ServiceUUID = some e1) ∧
    (∀ (d : MemDB) (e1 e2 : Volume),
      e2.ServiceUUID = e1.ServiceUUID → e2.VolumeID = e1.VolumeID →
      mapGet d.volMap (e1.ServiceUUID ++ e1.VolumeID) = none →
      (CreateVolume d e1).2 = .ok () ∧
      CreateVolume (CreateVolume d e1).1 e2
        = ((CreateVolume d e1).1, .error .ConditionalCheckFailed) ∧
      mapGet (CreateVolume d e1).1.volMap (e1.ServiceUUID ++ e1.VolumeID) = some e1) ∧
    (∀ (d : MemDB) (e1 e2 : ConfigFile),
      e2.ServiceUUID = e1.ServiceUUID → e2.FileID = e1.FileID →
      mapGet d.cfgMap (e1.ServiceUUID ++ e1.FileID) = none →
      (CreateConfigFile d e1).2 = .ok () ∧
      CreateConfigFile (CreateConfigFile d e1).1 e2
        = ((CreateConfigFile d e1).1, .error .ConditionalCheckFailed) ∧
      mapGet (CreateConfigFile d e1).1.cfgMap (e1.ServiceUUID ++ e1.FileID) = some e1) := by
  refine ⟨?_, ?_, ?_, ?_, ?_⟩
  · intro d e1 e2 h1 h2 habs
    exact ⟨by simp [CreateDevice, habs],
      by simp [CreateDevice, habs, h1, h2, mapGet_mapPut_self],
      by simp [CreateDevice, habs, mapGet_mapPut_self]⟩
  · intro d e1 e2 h1 h2 habs
    exact ⟨by simp [CreateService, habs],
      by simp [CreateService, habs, h1, h2, mapGet_mapPut_self],
      by simp [CreateService, habs, mapGet_mapPut_self]⟩
  · intro d e1 e2 h1 habs
    exact ⟨by simp [CreateServiceAttr, habs],
      by simp [CreateServiceAttr, habs, h1, mapGet_mapPut_self],
      by simp [CreateServiceAttr, habs, mapGet_mapPut_self]⟩
  · intro d e1 e2 h1 h2 habs
    exact ⟨by simp [CreateVolume, habs],
      by simp [CreateVolume, habs, h1, h2, mapGet_mapPut_self],
      by simp [CreateVolume, habs, mapGet_mapPut_self]⟩
  · intro d e1 e2 h1 h2 habs
    exact ⟨by simp [CreateConfigFile, habs],
      by simp [CreateConfigFile, habs, h1, h2, mapGet_mapPut_self],
      by simp [CreateConfigFile, habs, mapGet_mapPut_self]⟩

/-- Witness for C4 at a concrete input: creating devW1 twice in the empty
backend gives ok then ConditionalCheckFailed with the state unchanged. -/
theorem claim_C4_witness :
    (CreateDevice NewMemDB devW1).2 = .ok () ∧
    CreateDevice (CreateDevice NewMemDB devW1).1 devW1
      = ((CreateDevice NewMemDB devW1).1, .error .ConditionalCheckFailed) ∧
    mapGet (CreateDevice NewMemDB devW1).1.devMap (devW1.ClusterName ++ devW1.DeviceName)
      = some devW1 :=
  claim_C4.1 NewMemDB devW1 devW1 rfl rfl (by decide)

/-- C10: UpdateServiceAttr never validates that newAttr carries the same
identity as oldAttr and stores newAttr under oldAttr's key: if the UUID u
of oldAttr is present and the UUID of newAttr is a distinct absent u',
the update succeeds, GetServiceAttr(u) then returns newAttr and
GetServiceAttr(u') returns RecordNotFound. -/
theorem claim_C10 :
    ∀ (d : MemDB) (a oldAttr newAttr : ServiceAttr),
      mapGet d.svcAttrMap oldAttr.ServiceUUID = some a →
      newAttr.ServiceUUID ≠ oldAttr.ServiceUUID →
      mapGet d.svcAttrMap newAttr.ServiceUUID = none →
      (UpdateServiceAttr d oldAttr newAttr).2 = .ok () ∧
      GetServiceAttr (UpdateServiceAttr d oldAttr newAttr).1 oldAttr.ServiceUUID = .ok newAttr ∧
      GetServiceAttr (UpdateServiceAttr d oldAttr newAttr).1 newAttr.ServiceUUID
        = .error .RecordNotFound := by
  intro d a o n hsome hne hnone
  refine ⟨?_, ?_, ?_⟩
  · simp [UpdateServiceAttr, hsome]
  · simp [UpdateServiceAttr, hsome, GetServiceAttr, mapGet_mapPut_self, copyServiceAttr_eq]
  · simp [UpdateServiceAttr, hsome, GetServiceAttr,
      mapGet_mapPut_ne _ _ _ _ hne, hnone]

/-- Witness for C10 at a concrete input: after storing attrW1 (UUID u1),
updating with newAttr attrW2 (UUID u2) succeeds, u1 now maps to attrW2
and u2 is still absent. -/
theorem claim_C10_witness :
    (UpdateServiceAttr (CreateServiceAttr NewMemDB attrW1).1 attrW1 attrW2).2 = .ok () ∧
    GetServiceAttr (UpdateServiceAttr (CreateServiceAttr NewMemDB attrW1).1 attrW1 attrW2).1
      attrW1.ServiceUUID = .ok attrW2 ∧
    GetServiceAttr (UpdateServiceAttr (CreateServiceAttr NewMemDB attrW1).1 attrW1 attrW2).1
      attrW2.ServiceUUID = .error .RecordNotFound :=
  claim_C10 _ attrW1 attrW1 attrW2 (by decide) (by decide) (by decide)

/-- C1 counterexample: with attrW1 stored under UUID u1, calling
UpdateServiceAttr with an oldAttr (attrW1b) that differs from the stored
record succeeds instead of failing with ConditionalCheckFailed — the
source never compares the stored ServiceAttr against oldAttr. -/
theorem claim_C1_counterexample :
    mapGet (CreateServiceAttr NewMemDB attrW1).1.svcAttrMap attrW1b.ServiceUUID = some attrW1 ∧
    attrW1 ≠ attrW1b ∧
    (UpdateServiceAttr (CreateServiceAttr NewMemDB attrW1).1 attrW1b attrW2).2 = .ok () := by
  decide

/-- C1 amended: UpdateVolume implements the claimed compare-and-swap
(RecordNotFound when the key is absent, ConditionalCheckFailed when the
stored record does not equal oldVol under EqualVolume with the config
list excluded, otherwise it stores newVol; it succeeds iff the stored
value equals oldVol under that rule), while UpdateServiceAttr only checks
existence: it fails with RecordNotFound when oldAttr's UUID is absent and
otherwise stores newAttr unconditionally, succeeding regardless of
whether the stored record equals oldAttr. -/
theorem claim_C1_amended :
    ∀ (d : MemDB) (oldAttr newAttr : ServiceAttr) (oldVol newVol : Volume),
      ((UpdateServiceAttr d oldAttr newAttr).2 = .ok () ↔
        (mapGet d.svcAttrMap oldAttr.ServiceUUID).isSome = true) ∧
      (mapGet d.svcAttrMap oldAttr.ServiceUUID = none →
        UpdateServiceAttr d oldAttr newAttr = (d, .error .RecordNotFound)) ∧
      ((mapGet d.svcAttrMap oldAttr.ServiceUUID).isSome = true →
        mapGet (UpdateServiceAttr d oldAttr newAttr).1.svcAttrMap oldAttr.ServiceUUID
          = some newAttr) ∧
      ((UpdateVolume d oldVol newVol).2 = .ok () ↔
        ∃ v, mapGet d.volMap (oldVol.ServiceUUID ++ oldVol.VolumeID) = some v ∧
          EqualVolume oldVol v true = true) ∧
      (mapGet d.volMap (oldVol.ServiceUUID ++ oldVol.VolumeID) = none →
        UpdateVolume d oldVol newVol = (d, .error .RecordNotFound)) ∧
      (∀ v, mapGet d.volMap (oldVol.ServiceUUID ++ oldVol.VolumeID) = some v →
        EqualVolume oldVol v true = false →
        UpdateVolume d oldVol newVol = (d, .error .ConditionalCheckFailed)) ∧
      (∀ v, mapGet d.volMap (oldVol.ServiceUUID ++ oldVol.VolumeID) = some v →
        EqualVolume oldVol v true = true →
        UpdateVolume d oldVol newVol =
          ({ d with volMap :=
              mapPut d.volMap (oldVol.ServiceUUID ++ oldVol.VolumeID) newVol }, .ok ())) := by
  intro d oldAttr newAttr oldVol newVol
  refine ⟨?_, ?_, ?_, ?_, ?_, ?_, ?_⟩
  · cases hm : mapGet d.svcAttrMap oldAttr.ServiceUUID <;> simp [UpdateServiceAttr, hm]
  · intro hm
    simp [UpdateServiceAttr, hm]
  · intro hm
    cases hm' : mapGet d.svcAttrMap oldAttr.ServiceUUID with
    | none => rw [hm'] at hm; simp at hm
    | some a => simp [UpdateServiceAttr, hm', mapGet_mapPut_self]
  · cases hm : mapGet d.volMap (oldVol.ServiceUUID ++ oldVol.VolumeID) with
    | none => simp [UpdateVolume, hm]
    | some v => cases hEq : EqualVolume oldVol v true <;> simp [UpdateVolume, hm, hEq]
  · intro hm
    simp [UpdateVolume, hm]
  · intro v hm hEq
    simp [UpdateVolume, hm, hEq]
  · intro v hm hEq
    simp [UpdateVolume, hm, hEq]

/-- Witness for the amended C1 at concrete inputs: with attrW1 stored,
an update with a mismatching oldAttr still replaces the record; with
volW1 stored, an update whose oldVol (volW1b) differs from the stored
volume under EqualVolume fails with ConditionalCheckFailed and leaves the
state unchanged. -/
theorem claim_C1_amended_witness :
    mapGet (CreateServiceAttr NewMemDB attrW1).1.svcAttrMap attrW1b.ServiceUUID = some attrW1 ∧
    mapGet (UpdateServiceAttr (CreateServiceAttr NewMemDB attrW1).1 attrW1b attrW2).1.svcAttrMap
      attrW1b.ServiceUUID = some attrW2 ∧
    UpdateVolume (CreateVolume NewMemDB volW1).1 volW1b volW2
      = ((CreateVolume NewMemDB volW1).1, .error .ConditionalCheckFailed) :=
  ⟨by decide,
    (claim_C1_amended (CreateServiceAttr NewMemDB attrW1).1 attrW1b attrW2 volW1b volW2).2.2.1
      (by decide),
    (claim_C1_amended (CreateVolume NewMemDB volW1).1 attrW1b attrW2 volW1b volW2).2.2.2.2.2.1
      volW1 (by decide) (by decide)⟩

/-- C2 counterexample: listing the devices of cluster c1 over a backend
holding only devW2 — a device of cluster c2 — returns that foreign
record instead of an empty collection. -/
theorem claim_C2_counterexample :
    ListDevices (CreateDevice NewMemDB devW2).1 "c1".toList = .ok [devW2] ∧
    devW2.ClusterName ≠ "c1".toList := by
  decide

/-- C2 amended: listVolumesWithLimit returns exactly one copy of each
stored volume entry whose ServiceUUID equals the argument and nothing
else, always as a success (an empty list, never an error, when nothing
matches); listDevicesWithLimit and listServicesWithLimit ignore their
partition argument and return one copy of every stored entry of their
kind. -/
theorem claim_C2_amended :
    (∀ (d : MemDB) (serviceUUID : GoStr),
      listVolumesWithLimit d serviceUUID 0 =
        .ok ((d.volMap.map Prod.snd).filter fun v => v.ServiceUUID = serviceUUID)) ∧
    (∀ (d : MemDB) (clusterName : GoStr),
      listDevicesWithLimit d clusterName 0 = .ok (d.devMap.map Prod.snd)) ∧
    (∀ (d : MemDB) (clusterName : GoStr),
      listServicesWithLimit d clusterName 0 = .ok (d.svcMap.map Prod.snd)) := by
  refine ⟨?_, ?_, ?_⟩
  · intro d uuid
    simp only [listVolumesWithLimit, Except.ok.injEq, copyVolume_eq]
    induction d.volMap with
    | nil => rfl
    | cons p rest ih =>
      by_cases h : p.2.ServiceUUID = uuid
      · simp [List.filterMap_cons, List.filter_cons, h, ih]
      · simp [List.filterMap_cons, List.filter_cons, h, ih]
  · intro d c
    simp [listDevicesWithLimit, copyDevice_eq]
  · intro d c
    simp [listServicesWithLimit, copyService_eq]

/-- C3: evaluation of the slice-level model of copyVolume at the failing
input. The copy shares the Configs slice header with the original, so
overwriting element 0 of the Configs of the record returned by Get is
visible when the stored record's Configs is dereferenced afterwards —
the backend hands out an alias, not a deep copy. -/
theorem claim_C3 :
    (copyVolumeS volWS).Configs = volWS.Configs ∧
    readSlice heapW0 volWS.Configs = ["cfgA".toList] ∧
    readSlice (writeSliceElem heapW0 (copyVolumeS volWS).Configs 0 "cfgB".toList) volWS.Configs
      = ["cfgB".toList] := by
  decide

/-! Lemmas about the string helpers of the dns module. -/

theorem slash_isSuffixOf_append (l : GoStr) : (['/'].isSuffixOf (l ++ ['/'])) = true := by
  simp [List.isSuffixOf, List.isPrefixOf]

theorem splitSep_ne_nil (c : Char) (s : GoStr) : splitSep c s ≠ [] := by
  cases s with
  | nil => simp [splitSep]
  | cons a t =>
    by_cases h : a = c
    · simp [splitSep, h]
    · simp only [splitSep, if_neg h]
      cases splitSep c t <;> simp

theorem splitSep_length (c : Char) (s : GoStr) :
    (splitSep c s).length = s.count c + 1 := by
  induction s with
  | nil => simp [splitSep]
  | cons a t ih =>
    by_cases h : a = c
    · subst h
      simp [splitSep, List.count_cons_self, ih]
    · rcases he : splitSep c t with _ | ⟨hd, tl⟩
      · exact absurd he (splitSep_ne_nil c t)
      · rw [he, List.length_cons] at ih
        simp only [splitSep, if_neg h, he, List.length_cons,
          List.count_cons_of_ne (Ne.symm h)]
        omega

/-- C6 counterexample: on the input "a/" (no http prefix, already ending
in '/') with TLS disabled, FormatMgtServiceURL returns "http://a//",
which ends in two slashes — not exactly one trailing '/'. -/
theorem claim_C6_counterexample :
    FormatMgtServiceURL "a/".toList false = "http://a//".toList ∧
    (['/', '/'].isSuffixOf (FormatMgtServiceURL "a/".toList false)) = true := by
  decide

/-- C6 amended: when the input lacks an http-prefixed scheme the scheme
selected by the TLS flag and a trailing '/' are appended around it; when
it has such a scheme it is left untouched and a '/' is appended only if
the input does not already end in one; in all cases the result ends with
at least one '/' (exactly one only when the input does not already end
in '/'). -/
theorem FormatMgtServiceURL_no_scheme (surl : GoStr) (tlsEnabled : Bool)
    (hp : ("http".toList.isPrefixOf surl) = false) :
    FormatMgtServiceURL surl tlsEnabled =
      (if tlsEnabled then "https://".toList else "http://".toList) ++ surl ++ ['/'] := by
  unfold FormatMgtServiceURL
  simp only [hp, Bool.not_false, if_true]
  cases tlsEnabled <;> rfl

theorem FormatMgtServiceURL_scheme (surl : GoStr) (tlsEnabled : Bool)
    (hp : ("http".toList.isPrefixOf surl) = true) :
    FormatMgtServiceURL surl tlsEnabled =
      (if ['/'].isSuffixOf surl then surl else surl ++ ['/']) := by
  unfold FormatMgtServiceURL
  simp only [hp, Bool.not_true, Bool.false_eq_true, if_false]
  cases hs : ['/'].isSuffixOf surl <;> simp [hs]

theorem claim_C6_amended :
    ∀ (surl : GoStr) (tlsEnabled : Bool),
      (("http".toList.isPrefixOf surl) = false →
        FormatMgtServiceURL surl tlsEnabled =
          (if tlsEnabled then "https://".toList else "http://".toList) ++ surl ++ ['/']) ∧
      (("http".toList.isPrefixOf surl) = true →
        FormatMgtServiceURL surl tlsEnabled =
          (if ['/'].isSuffixOf surl then surl else surl ++ ['/'])) ∧
      (['/'].isSuffixOf (FormatMgtServiceURL surl tlsEnabled)) = true := by
  intro surl tls
  refine ⟨FormatMgtServiceURL_no_scheme surl tls, FormatMgtServiceURL_scheme surl tls, ?_⟩
  by_cases hp : ("http".toList.isPrefixOf surl) = true
  · rw [FormatMgtServiceURL_scheme surl tls hp]
    cases hs : ['/'].isSuffixOf surl
    · simp only [hs, Bool.false_eq_true, if_false]
      exact slash_isSuffixOf_append surl
    · simp [hs]
  · have hp' : ("http".toList.isPrefixOf surl) = false := by
      cases hpt : ("http".toList.isPrefixOf surl)
      · rfl
      · exact absurd hpt hp
    rw [FormatMgtServiceURL_no_scheme surl tls hp']
    exact slash_isSuffixOf_append _

/-- Witness for the amended C6 at concrete inputs: "myhost:1234" without
TLS becomes "http://myhost:1234/", and "https://myhost:1234" keeps its
scheme and only gains the trailing slash. -/
theorem claim_C6_amended_witness :
    FormatMgtServiceURL "myhost:1234".toList false = "http://myhost:1234/".toList ∧
    FormatMgtServiceURL "https://myhost:1234".toList true = "https://myhost:1234/".toList :=
  ⟨by rw [(claim_C6_amended "myhost:1234".toList false).1 (by decide)]; decide,
   by rw [(claim_C6_amended "https://myhost:1234".toList true).2.1 (by decide)]; decide⟩

/-- C7: GetDomainNameFromDNSName fails with DomainNotFound exactly when
the input has fewer than 3 dot-separated labels (the label count being
the dot count plus one), and otherwise returns the last two labels
joined by '.'; in particular "pg-0.c1-openmanage.com" yields
"c1-openmanage.com" and "badname" yields DomainNotFound. -/
theorem claim_C7 :
    ∀ s : GoStr,
      ((GetDomainNameFromDNSName s = .error .DomainNotFound) ↔ s.count '.' + 1 < 3) ∧
      (∀ pre a b, pre ≠ [] → splitSep dnsNameSeparator s = pre ++ [a, b] →
        GetDomainNameFromDNSName s = .ok (a ++ '.' :: b)) ∧
      GetDomainNameFromDNSName "pg-0.c1-openmanage.com".toList = .ok "c1-openmanage.com".toList ∧
      GetDomainNameFromDNSName "badname".toList = .error .DomainNotFound := by
  intro s
  have hl : (splitSep dnsNameSeparator s).length = s.count '.' + 1 :=
    splitSep_length dnsNameSeparator s
  refine ⟨?_, ?_, by decide, by decide⟩
  · by_cases h3 : s.count '.' + 1 < 3
    · simp [GetDomainNameFromDNSName, hl, h3]
    · simp [GetDomainNameFromDNSName, hl, h3]
  · intro pre a b hne hsplit
    have hplen : 1 ≤ pre.length := List.length_pos.mpr hne
    have hlen : (pre ++ [a, b]).length = pre.length + 2 := by simp
    have e1 : (pre ++ [a, b]).getD ((pre ++ [a, b]).length - 2) [] = a := by
      rw [hlen, show pre.length + 2 - 2 = pre.length by omega,
        List.getD_append_right pre [a, b] [] pre.length (le_refl _)]
      simp
    have e2 : (pre ++ [a, b]).getD ((pre ++ [a, b]).length - 1) [] = b := by
      rw [hlen, show pre.length + 2 - 1 = pre.length + 1 by omega,
        List.getD_append_right pre [a, b] [] (pre.length + 1) (by omega)]
      simp
    simp only [GetDomainNameFromDNSName, hsplit]
    rw [if_neg (by rw [hlen]; omega : ¬ ((pre ++ [a, b]).length < 3)), e1, e2]
    rfl

/-- Witness for C7 at a concrete input: "db-0.cluster-scservice.com"
splits into three labels and the last two joined give
"cluster-scservice.com". -/
theorem claim_C7_witness :
    GetDomainNameFromDNSName "db-0.cluster-scservice.com".toList =
      .ok ("cluster-scservice".toList ++ '.' :: "com".toList) :=
  (claim_C7 "db-0.cluster-scservice.com".toList).2.1
    ["db-0".toList] "cluster-scservice".toList "com".toList (by decide) (by decide)

/-- C8: whenever dnsName does not end with domainName, RegisterDNSName
returns DomainNotFound and performs no call on the DNS-provider
collaborator (neither zone resolution nor record upsert). -/
theorem claim_C8 :
    ∀ (domainName dnsName : GoStr) (serverInfo : ServerInfo) (dnsIns : DNS),
      (domainName.isSuffixOf dnsName) = false →
      RegisterDNSName domainName dnsName serverInfo dnsIns = (.error .DomainNotFound, []) := by
  intro domainName dnsName serverInfo dnsIns h
  simp [RegisterDNSName, h]

/-- Witness for C8 at a concrete input: registering
"pg-0.c1-openmanage.com" against domain "other.com" fails with
DomainNotFound and the provider trace is empty. -/
theorem claim_C8_witness :
    RegisterDNSName "other.com".toList "pg-0.c1-openmanage.com".toList
        ⟨"vpc1".toList, "region1".toList, "host1".toList⟩
        ⟨fun _ _ _ _ => .ok "zone1".toList, fun _ _ _ => .ok ()⟩
      = (.error .DomainNotFound, []) :=
  claim_C8 "other.com".toList "pg-0.c1-openmanage.com".toList
    ⟨"vpc1".toList, "region1".toList, "host1".toList⟩
    ⟨fun _ _ _ _ => .ok "zone1".toList, fun _ _ _ => .ok ()⟩ (by decide)
